import Mathlib

/-!
# Inventory management with supplier notifications

A shallow embedding of `main.cpp`: the classes `Product`, `Supplier`
(`LocalSupplier`, `GlobalSupplier`) and `Organization`, and the sell branch of
`main`, followed by the properties of the subscription, assignment and
notification core.

Conventions of the embedding.

* A C++ `int` is a Lean `Int` together with the range predicate `IsInt`; the two
  arithmetic expressions of the program (`stockLevel -= soldQuantity` and
  `getReorderThreshold() * 2 - getStockLevel()`) are evaluated with `wrapInt`,
  the two's-complement reduction to 32 bits. Signed overflow is undefined
  behaviour in C++; `wrapInt` is the value the usual targets produce. The
  equations and bounds on stock levels and quantities below are stated where
  no operation overflows, so they do not depend on that choice.
* A `Supplier *` is a `SupplierPtr`, the position of the object in the list of
  supplier objects of a `World`. A `Product *` obtained from
  `findProductByID` is a position in the `products` vector.
* Text written to `cout` is recorded as a list of `Event`s; the virtual call
  `supplier->notifyRestock(id, quantity)` is the event
  `Event.notifyRestock supplier id quantity`. Both overrides of
  `notifyRestock` only print.
* `price` is a `double` that is stored and printed, never computed with; it is
  carried as a rational number.
-/

namespace Inventory

/-! ## 32-bit `int` -/

/-- Smallest value of a 32-bit `int`. -/
def INT_MIN : Int := -2147483648

/-- Largest value of a 32-bit `int`. -/
def INT_MAX : Int := 2147483647

/-- Range predicate of a 32-bit `int`. -/
def IsInt (x : Int) : Prop := INT_MIN ≤ x ∧ x ≤ INT_MAX

instance (x : Int) : Decidable (IsInt x) := by
  unfold IsInt; exact inferInstance

/-- Two's-complement reduction of a mathematical integer to a 32-bit `int`. -/
def wrapInt (x : Int) : Int := (x + 2147483648) % 4294967296 - 2147483648

/-! ## `class Product` -/

/-- The data members of `class Product`. -/
structure Product where
  productID : Int
  productName : String
  category : String
  price : Rat
  stockLevel : Int
  reorderThreshold : Int
deriving DecidableEq

namespace Product

/-- All `int` members are in the range of `int`. -/
def WF (p : Product) : Prop :=
  IsInt p.productID ∧ IsInt p.stockLevel ∧ IsInt p.reorderThreshold

instance (p : Product) : Decidable p.WF := by
  unfold WF; exact inferInstance

/-- `Product::getProductID`. -/
def getProductID (p : Product) : Int := p.productID

/-- `Product::getProductName`. -/
def getProductName (p : Product) : String := p.productName

/-- `Product::getCategory`. -/
def getCategory (p : Product) : String := p.category

/-- `Product::getStockLevel`. -/
def getStockLevel (p : Product) : Int := p.stockLevel

/-- `Product::getReorderThreshold`. -/
def getReorderThreshold (p : Product) : Int := p.reorderThreshold

/-- `Product::updateStockLevel`: clamp to zero when more is sold than is in
stock, subtract otherwise. -/
def updateStockLevel (p : Product) (soldQuantity : Int) : Product :=
  if soldQuantity > p.stockLevel then
    { p with stockLevel := 0 }
  else
    { p with stockLevel := wrapInt (p.stockLevel - soldQuantity) }

/-- `Product::needsRestocking`. -/
def needsRestocking (p : Product) : Bool :=
  decide (p.stockLevel ≤ p.reorderThreshold)

/-- `Product::setStockLevel`. -/
def setStockLevel (p : Product) (newStockLevel : Int) : Product :=
  { p with stockLevel := newStockLevel }

end Product

/-! ## `class Supplier` and its two subclasses -/

/-- Address of a `Supplier` object. -/
abbrev SupplierPtr := Nat

/-- Address of an `Organization` object. -/
abbrev OrgPtr := Nat

/-- The dynamic type of a `Supplier` object. -/
inductive SupplierKind where
  | LocalSupplier
  | GlobalSupplier
deriving DecidableEq

/-- The data members of a supplier object: those of the base class and the
`subscribedOrg` pointer of the subclass (`none` is `nullptr`). -/
structure Supplier where
  kind : SupplierKind
  name : String
  assignedProductIDs : List Int
  subscribedOrg : Option OrgPtr
deriving DecidableEq

/-- The constructor `LocalSupplier(name)`. -/
def LocalSupplier.new (name : String) : Supplier :=
  { kind := .LocalSupplier, name := name, assignedProductIDs := [], subscribedOrg := none }

/-- The constructor `GlobalSupplier(name)`. -/
def GlobalSupplier.new (name : String) : Supplier :=
  { kind := .GlobalSupplier, name := name, assignedProductIDs := [], subscribedOrg := none }

namespace Supplier

/-- `Supplier::assignProduct`: `push_back` on the assignment list. -/
def assignProduct (s : Supplier) (productID : Int) : Supplier :=
  { s with assignedProductIDs := s.assignedProductIDs ++ [productID] }

/-- `Supplier::getAssignedProducts`. -/
def getAssignedProducts (s : Supplier) : List Int := s.assignedProductIDs

/-- `Supplier::getName`. -/
def getName (s : Supplier) : String := s.name

end Supplier

/-! ## Output -/

/-- What the program writes to `cout`, one constructor per message, and the
calls of `notifyRestock`. -/
inductive Event where
  /-- The line `Low stock alert for: <name> (ID: <id>)`. -/
  | lowStockAlert (productName : String) (productID : Int)
  /-- The banner `Targeted Restock Notification`. -/
  | targetedHeader
  /-- The call `supplier->notifyRestock(productID, quantity)`. -/
  | notifyRestock (supplier : SupplierPtr) (productID : Int) (quantity : Int)
  /-- The line `All products are well-stocked. No restocking needed.` -/
  | noRestockingNeeded
  /-- The line `Sale successful! Remaining stock: <n>`. -/
  | saleSuccessful (remaining : Int)
  /-- The line `Invalid quantity or insufficient stock.` -/
  | invalidQuantity
  /-- The line `This product is not assigned to the current supplier.` -/
  | notAssigned
  /-- The line `Product not found.` -/
  | productNotFound
  /-- The heading `Products for <supplier name>` and the column titles. -/
  | productsForHeader (supplierName : String)
  /-- One row written by `Product::displayProductDetails`. -/
  | productDetails (productID : Int) (productName : String) (category : String)
      (price : Rat) (stockLevel : Int)
deriving DecidableEq

/-- The notifications among the events, in order. -/
def Event.isNotification : Event → Bool
  | .notifyRestock _ _ _ => true
  | _ => false

/-! ## Algorithms of the standard library used by the program -/

/-- `std::find_if` over a whole vector: the position of the first element
satisfying `pred`, or the length of the vector (`end()`) when there is none. -/
def find_if {α : Type} (pred : α → Bool) : List α → Nat
  | [] => 0
  | x :: xs => if pred x then 0 else find_if pred xs + 1

/-- `std::find` over a whole vector. -/
def find {α : Type} [DecidableEq α] (xs : List α) (v : α) : Nat :=
  find_if (fun x => decide (x = v)) xs

/-- The erase-remove idiom `v.erase(std::remove_if(v.begin(), v.end(), pred), v.end())`:
`remove_if` moves the elements that do not satisfy `pred` to the front, in
their order, and `erase` cuts the vector at the returned iterator. -/
def remove_if {α : Type} (pred : α → Bool) : List α → List α
  | [] => []
  | x :: xs => if pred x then remove_if pred xs else x :: remove_if pred xs

/-! ## `class Organization` -/

/-- The data members of `class Organization`. -/
structure Organization where
  products : List Product
  subscribedSuppliers : List SupplierPtr
deriving DecidableEq

/-- `Product::displayProductDetails`. -/
def Product.displayProductDetails (p : Product) : List Event :=
  [Event.productDetails p.productID p.productName p.category p.price p.stockLevel]

namespace Organization

/-- The implicit default constructor: both vectors empty. -/
def new : Organization := { products := [], subscribedSuppliers := [] }

/-- `Organization::addProduct`. -/
def addProduct (org : Organization) (product : Product) : Organization :=
  { org with products := org.products ++ [product] }

/-- `Organization::removeProduct`. -/
def removeProduct (org : Organization) (productID : Int) : Organization :=
  { org with
    products := remove_if (fun p => decide (p.getProductID = productID)) org.products }

/-- `Organization::findProductByID`: the position of the product found
(the pointer `&(*it)`), or `none` for `nullptr`. -/
def findProductByID (org : Organization) (productID : Int) : Option Nat :=
  let it := find_if (fun p => decide (p.getProductID = productID)) org.products
  if it ≠ org.products.length then some it else none

/-- `Organization::getAllProducts`. -/
def getAllProducts (org : Organization) : List Product := org.products

/-- The loop of `displayProductsForSupplier` over the assigned product IDs. -/
def displayRows (org : Organization) : List Int → List Event
  | [] => []
  | productID :: rest =>
    match org.findProductByID productID with
    | some product =>
      (match org.products[product]? with
        | some p => p.displayProductDetails
        | none => []) ++ displayRows org rest
    | none => displayRows org rest

/-- `Organization::displayProductsForSupplier`, given the supplier object the
pointer refers to. -/
def displayProductsForSupplier (org : Organization) (supplier : Supplier) : List Event :=
  Event.productsForHeader supplier.getName :: displayRows org supplier.getAssignedProducts

/-- `Organization::subscribeSupplier`. -/
def subscribeSupplier (org : Organization) (supplier : SupplierPtr) : Organization :=
  { org with subscribedSuppliers := org.subscribedSuppliers ++ [supplier] }

/-- The inner loop of `checkInventoryAndNotify`: one `notifyRestock` call per
entry of `subscribedSuppliers`. -/
def notifySubscribed (productID quantityToRestock : Int) : List SupplierPtr → List Event
  | [] => []
  | supplier :: rest =>
    Event.notifyRestock supplier productID quantityToRestock ::
      notifySubscribed productID quantityToRestock rest

/-- The outer loop of `checkInventoryAndNotify`; the state is the flag
`needRestocking` and the output written so far. -/
def checkInventoryLoop (subscribedSuppliers : List SupplierPtr) :
    List Product → Bool × List Event → Bool × List Event
  | [], st => st
  | product :: rest, (needRestocking, out) =>
    if product.needsRestocking then
      let quantityToRestock :=
        wrapInt (wrapInt (product.getReorderThreshold * 2) - product.getStockLevel)
      checkInventoryLoop subscribedSuppliers rest
        (true,
         out ++ Event.lowStockAlert product.getProductName product.getProductID ::
           notifySubscribed product.getProductID quantityToRestock subscribedSuppliers)
    else
      checkInventoryLoop subscribedSuppliers rest (needRestocking, out)

/-- `Organization::checkInventoryAndNotify`: the organization after the call
and the output. -/
def checkInventoryAndNotify (org : Organization) : Organization × List Event :=
  let st := checkInventoryLoop org.subscribedSuppliers org.products (false, [])
  if !st.1 then (org, st.2 ++ [Event.noRestockingNeeded]) else (org, st.2)

/-- `Organization::sendTargetedNotification`, given the product the pointer
refers to: the organization after the call and the output. -/
def sendTargetedNotification (org : Organization) (product : Product)
    (supplier : SupplierPtr) : Organization × List Event :=
  if product.needsRestocking then
    let quantityToRestock :=
      wrapInt (wrapInt (product.getReorderThreshold * 2) - product.getStockLevel)
    (org,
     [Event.targetedHeader,
      Event.lowStockAlert product.getProductName product.getProductID,
      Event.notifyRestock supplier product.getProductID quantityToRestock])
  else
    (org, [])

end Organization

/-! ## `subscribeToOrganization` -/

/-- The loop of `LocalSupplier::subscribeToOrganization` over the catalog. -/
def LocalSupplier.assignLoop : List Product → Supplier → Supplier
  | [], self => self
  | product :: rest, self =>
    if product.getCategory == "Electronics" then
      LocalSupplier.assignLoop rest (self.assignProduct product.getProductID)
    else
      LocalSupplier.assignLoop rest self

/-- `LocalSupplier::subscribeToOrganization`; `this` is the address of the
supplier and `org` the address of the organization `o`. -/
def LocalSupplier.subscribeToOrganization (this : SupplierPtr) (self : Supplier)
    (org : OrgPtr) (o : Organization) : Supplier × Organization :=
  let self := { self with subscribedOrg := some org }
  let o := o.subscribeSupplier this
  let products := o.getAllProducts
  (LocalSupplier.assignLoop products self, o)

/-- The loop of `GlobalSupplier::subscribeToOrganization` over the catalog. -/
def GlobalSupplier.assignLoop : List Product → Supplier → Supplier
  | [], self => self
  | product :: rest, self =>
    if product.getCategory != "Electronics" then
      GlobalSupplier.assignLoop rest (self.assignProduct product.getProductID)
    else
      GlobalSupplier.assignLoop rest self

/-- `GlobalSupplier::subscribeToOrganization`. -/
def GlobalSupplier.subscribeToOrganization (this : SupplierPtr) (self : Supplier)
    (org : OrgPtr) (o : Organization) : Supplier × Organization :=
  let self := { self with subscribedOrg := some org }
  let o := o.subscribeSupplier this
  let products := o.getAllProducts
  (GlobalSupplier.assignLoop products self, o)

/-- The virtual call `supplier->subscribeToOrganization(org)`. -/
def Supplier.subscribeToOrganization (this : SupplierPtr) (self : Supplier)
    (org : OrgPtr) (o : Organization) : Supplier × Organization :=
  match self.kind with
  | .LocalSupplier => LocalSupplier.subscribeToOrganization this self org o
  | .GlobalSupplier => GlobalSupplier.subscribeToOrganization this self org o

/-! ## The objects of `main` -/

/-- The objects alive in `main`: the organization and the supplier objects; a
`SupplierPtr` is a position in `suppliers`. -/
structure World where
  organization : Organization
  suppliers : List Supplier
deriving DecidableEq

namespace World

/-- The address `&organization`. -/
def orgPtr : OrgPtr := 0

/-- The statement `organization.addProduct(product)`. -/
def addProduct (w : World) (product : Product) : World :=
  { w with organization := w.organization.addProduct product }

/-- The statement `supplier->subscribeToOrganization(&organization)`; there is
no result when `supplier` does not point to a supplier object. -/
def subscribeToOrganization (w : World) (supplier : SupplierPtr) : Option World :=
  match w.suppliers[supplier]? with
  | none => none
  | some self =>
    let r := self.subscribeToOrganization supplier orgPtr w.organization
    some { organization := r.2, suppliers := w.suppliers.set supplier r.1 }

end World

namespace main

/-- `Product laptop(101, "Laptop", "Electronics", 1000.0, 10, 5)`. -/
def laptop : Product := ⟨101, "Laptop", "Electronics", 1000, 10, 5⟩

/-- `Product smartphone(102, "Smartphone", "Electronics", 500.0, 10, 5)`. -/
def smartphone : Product := ⟨102, "Smartphone", "Electronics", 500, 10, 5⟩

/-- `Product tablet(103, "Tablet", "Electronics", 300.0, 7, 4)`. -/
def tablet : Product := ⟨103, "Tablet", "Electronics", 300, 7, 4⟩

/-- `Product refrigerator(104, "Refrigerator", "Appliances", 500.0, 5, 3)`. -/
def refrigerator : Product := ⟨104, "Refrigerator", "Appliances", 500, 5, 3⟩

/-- `Product microwave(105, "Microwave", "Appliances", 200.0, 8, 4)`. -/
def microwave : Product := ⟨105, "Microwave", "Appliances", 200, 8, 4⟩

/-- The address `&localSupplier`. -/
def localSupplier : SupplierPtr := 0

/-- The address `&globalSupplier`. -/
def globalSupplier : SupplierPtr := 1

/-- The objects of `main` after the five `addProduct` calls and the two
constructors, before the subscriptions. -/
def seeded : World :=
  { organization :=
      ((((Organization.new.addProduct laptop).addProduct smartphone).addProduct tablet).addProduct
        refrigerator).addProduct microwave
    suppliers := [LocalSupplier.new "Local Supplier", GlobalSupplier.new "Global Supplier"] }

/-- The objects of `main` when the menu loop is entered. -/
def setup : Option World :=
  (seeded.subscribeToOrganization localSupplier).bind
    (fun w => w.subscribeToOrganization globalSupplier)

/-- Menu entry 2, `Sell Product`, with the two numbers read from `cin`; there
is no result when `currentSupplier` does not point to a supplier object. Menus
and prompts are not recorded, and the local `originalStockLevel`, which is
never read, is left out. -/
def sellProduct (w : World) (currentSupplier : SupplierPtr) (productId quantity : Int) :
    Option (World × List Event) :=
  match w.suppliers[currentSupplier]? with
  | none => none
  | some cur =>
    let listing := w.organization.displayProductsForSupplier cur
    match w.organization.findProductByID productId with
    | some product =>
      match w.organization.products[product]? with
      | none => none
      | some p =>
        let assignedProducts := cur.getAssignedProducts
        let it := find assignedProducts productId
        if it = assignedProducts.length then
          some (w, listing ++ [Event.notAssigned])
        else if quantity > 0 ∧ quantity ≤ p.getStockLevel then
          let p1 := p.updateStockLevel quantity
          let org1 : Organization :=
            { w.organization with products := w.organization.products.set product p1 }
          let out := listing ++ [Event.saleSuccessful p1.getStockLevel]
          if p1.needsRestocking then
            let r := org1.sendTargetedNotification p1 currentSupplier
            some ({ w with organization := r.1 }, out ++ r.2)
          else
            some ({ w with organization := org1 }, out)
        else
          some (w, listing ++ [Event.invalidQuantity])
    | none => some (w, listing ++ [Event.productNotFound])

/-- Menu entry 3, `Check Inventory Status`. -/
def checkInventoryStatus (w : World) : World × List Event :=
  let r := w.organization.checkInventoryAndNotify
  ({ w with organization := r.1 }, r.2)

end main

/-! ## Definitions used to state the properties -/

/-- The value of the expression `getReorderThreshold() * 2 - getStockLevel()`
in `int` arithmetic, as both notification paths compute it. -/
def quantityToRestock (p : Product) : Int :=
  wrapInt (wrapInt (p.reorderThreshold * 2) - p.stockLevel)

/-- What a `Product *` returned by `findProductByID` points to. -/
def Organization.deref (org : Organization) (product : Option Nat) : Option Product :=
  product.bind (fun i => org.products[i]?)

/-- The broadcast of one product: one notification per subscribed supplier, in
subscription order, all with the quantity of that product. -/
def broadcast (subscribedSuppliers : List SupplierPtr) (p : Product) : List Event :=
  subscribedSuppliers.map (fun s => Event.notifyRestock s p.productID (quantityToRestock p))

/-- The output of the sweep for one product that needs restocking: the alert
line, then the broadcast. -/
def sweepOutput (subscribedSuppliers : List SupplierPtr) (p : Product) : List Event :=
  Event.lowStockAlert p.productName p.productID :: broadcast subscribedSuppliers p

/-- The product IDs of the `Electronics` products of a catalog, in catalog order. -/
def electronicsIDs (catalog : List Product) : List Int :=
  (catalog.filter (fun p => p.category == "Electronics")).map Product.productID

/-- The product IDs of the products of a catalog that are not `Electronics`, in
catalog order. -/
def otherIDs (catalog : List Product) : List Int :=
  (catalog.filter (fun p => !(p.category == "Electronics"))).map Product.productID

/-- The objects of `main` when the menu loop is entered, written out: the value
of `main.setup`. -/
def main.ready : World :=
  { organization :=
      { products := [main.laptop, main.smartphone, main.tablet, main.refrigerator,
          main.microwave]
        subscribedSuppliers := [main.localSupplier, main.globalSupplier] }
    suppliers :=
      [{ kind := .LocalSupplier, name := "Local Supplier",
         assignedProductIDs := [101, 102, 103], subscribedOrg := some World.orgPtr },
       { kind := .GlobalSupplier, name := "Global Supplier",
         assignedProductIDs := [104, 105], subscribedOrg := some World.orgPtr }] }

/-- What `subscribeToOrganization` selects from a catalog for a supplier of the
given dynamic type. -/
def selectedIDs (kind : SupplierKind) (catalog : List Product) : List Int :=
  match kind with
  | .LocalSupplier => electronicsIDs catalog
  | .GlobalSupplier => otherIDs catalog

/-- An `Electronics` product that is not part of the seed data. -/
def camera : Product := ⟨106, "Camera", "Electronics", 400, 9, 3⟩

/-- An `Electronics` product with the id 2. -/
def gadget : Product := ⟨2, "Gadget", "Electronics", 30, 6, 2⟩

/-- A product of another category entered with the same id 2. -/
def toy : Product := ⟨2, "Toy", "Toys", 10, 6, 2⟩

/-- A catalog in which the two entries share their id: `addProduct` accepts it. -/
def sharedIdCatalog : Organization :=
  (Organization.new.addProduct gadget).addProduct toy

/-- The laptop of the seed data after 6 of the 10 have been sold. -/
def laptopSold : Product := main.laptop.updateStockLevel 6

/-- The organization of `main` after the sale of 6 laptops. -/
def afterSale : Organization :=
  { products := [laptopSold, main.smartphone, main.tablet, main.refrigerator, main.microwave]
    subscribedSuppliers := [main.localSupplier, main.globalSupplier] }

/-- A product whose stock is the largest `int`. -/
def fullStock : Product := ⟨201, "Cable", "Electronics", 2, 2147483647, 5⟩

/-- A product with no stock and a reorder threshold of `2^30`. -/
def highThreshold : Product := ⟨202, "Screw", "Appliances", 1, 0, 1073741824⟩

/-- A product constructed with a negative stock and a negative threshold. -/
def negativeThreshold : Product := ⟨203, "Voucher", "Appliances", 1, -3, -2⟩

/-! ## Auxiliary lemmas -/

theorem setup_eq_ready : main.setup = some main.ready := by decide

theorem wrapInt_of_isInt {x : Int} (h : IsInt x) : wrapInt x = x := by
  unfold IsInt INT_MIN INT_MAX at h
  unfold wrapInt
  omega

theorem find_if_le {α : Type} (pred : α → Bool) (xs : List α) :
    find_if pred xs ≤ xs.length := by
  induction xs with
  | nil => simp [find_if]
  | cons x xs ih =>
    unfold find_if
    split
    · exact Nat.zero_le _
    · simpa using ih

theorem find_if_eq_length_iff {α : Type} (pred : α → Bool) (xs : List α) :
    find_if pred xs = xs.length ↔ ∀ x ∈ xs, pred x = false := by
  induction xs with
  | nil => simp [find_if]
  | cons x xs ih =>
    unfold find_if
    by_cases hx : pred x = true
    · simp [hx]
    · simp [hx, ih]

theorem getElem?_find_if {α : Type} (pred : α → Bool) (xs : List α) :
    xs[find_if pred xs]? = xs.find? pred := by
  induction xs with
  | nil => simp [find_if]
  | cons x xs ih =>
    unfold find_if
    by_cases hx : pred x = true
    · simp [hx]
    · simp [hx, ih]

theorem find_if_first {α : Type} (pred : α → Bool) (xs : List α) (j : Nat) (y : α)
    (hj : j < find_if pred xs) (hy : xs[j]? = some y) : pred y = false := by
  induction xs generalizing j with
  | nil => simp at hy
  | cons x xs ih =>
    unfold find_if at hj
    by_cases hx : pred x = true
    · simp [hx] at hj
    · have hx1 : pred x = false := by simpa using hx
      simp only [hx1, Bool.false_eq_true, if_false] at hj
      cases j with
      | zero =>
        simp at hy
        subst hy
        exact hx1
      | succ j =>
        simp at hy
        exact ih j (by omega) hy

theorem find_if_unique {α : Type} (pred : α → Bool) (xs : List α) (i : Nat) (x : α)
    (hx : xs[i]? = some x) (hp : pred x = true)
    (hfirst : ∀ j, j < i → ∀ y, xs[j]? = some y → pred y = false) :
    find_if pred xs = i := by
  induction xs generalizing i with
  | nil => simp at hx
  | cons a xs ih =>
    unfold find_if
    cases i with
    | zero =>
      simp at hx
      subst hx
      simp [hp]
    | succ i =>
      have ha : pred a = false := hfirst 0 (by omega) a (by simp)
      simp only [ha, Bool.false_eq_true, if_false, Nat.add_right_cancel_iff]
      apply ih i (by simpa using hx)
      intro j hj y hy
      exact hfirst (j + 1) (by omega) y (by simpa using hy)

theorem remove_if_eq_filter {α : Type} (pred : α → Bool) (xs : List α) :
    remove_if pred xs = xs.filter (fun x => !pred x) := by
  induction xs with
  | nil => rfl
  | cons x xs ih =>
    unfold remove_if
    by_cases hx : pred x = true
    · simp [hx, ih]
    · simp [hx, ih]

theorem deref_findProductByID (org : Organization) (productID : Int) :
    org.deref (org.findProductByID productID)
      = org.products.find? (fun p => decide (p.productID = productID)) := by
  unfold Organization.deref Organization.findProductByID
  simp only [Product.getProductID]
  split
  · simp [getElem?_find_if]
  · rename_i h
    have h1 : find_if (fun p : Product => decide (p.productID = productID)) org.products
        = org.products.length := by
      simpa using h
    have h2 := (find_if_eq_length_iff _ _).mp h1
    symm
    simp only [Option.none_bind, List.find?_eq_none]
    intro x hx
    simpa using h2 x hx

theorem findProductByID_eq_some_iff (org : Organization) (id : Int) (i : Nat) :
    org.findProductByID id = some i ↔
      ∃ p, org.products[i]? = some p ∧ p.productID = id ∧
        ∀ j, j < i → ∀ q, org.products[j]? = some q → q.productID ≠ id := by
  unfold Organization.findProductByID
  simp only [Product.getProductID]
  constructor
  · intro h
    split at h
    · rename_i hne
      have hi : find_if (fun p : Product => decide (p.productID = id)) org.products = i := by
        simpa using h
      have hle := find_if_le (fun p : Product => decide (p.productID = id)) org.products
      have hlt : i < org.products.length := by omega
      refine ⟨org.products[i], ?_, ?_, ?_⟩
      · simp [hlt]
      · have hg := getElem?_find_if (fun p : Product => decide (p.productID = id)) org.products
        rw [hi] at hg
        have hs : List.find? (fun p : Product => decide (p.productID = id)) org.products
            = some org.products[i] := by
          rw [← hg]; simp [hlt]
        simpa using List.find?_some hs
      · intro j hj q hq
        have hf := find_if_first (fun p : Product => decide (p.productID = id)) org.products j q
          (by omega) hq
        simpa using hf
    · simp at h
  · rintro ⟨p, hp, hid, hfirst⟩
    have hi : find_if (fun p : Product => decide (p.productID = id)) org.products = i := by
      apply find_if_unique _ _ i p hp (by simpa using hid)
      intro j hj y hy
      simpa using hfirst j hj y hy
    have hlt : i < org.products.length := by
      rcases Nat.lt_or_ge i org.products.length with h | h
      · exact h
      · rw [List.getElem?_eq_none h] at hp
        simp at hp
    rw [hi]
    simp only [ne_eq, ite_not]
    split
    · omega
    · rfl

theorem findProductByID_eq_none_iff (org : Organization) (id : Int) :
    org.findProductByID id = none ↔ ∀ p ∈ org.products, p.productID ≠ id := by
  unfold Organization.findProductByID
  simp only [Product.getProductID]
  have h := find_if_eq_length_iff (fun p : Product => decide (p.productID = id)) org.products
  constructor
  · intro hn
    split at hn
    · simp at hn
    · rename_i hne
      have h1 := h.mp (by simpa using hne)
      intro p hp
      simpa using h1 p hp
  · intro hall
    have h1 := h.mpr (fun x hx => by simpa using hall x hx)
    simp [h1]

theorem sendTargetedNotification_fst (org : Organization) (product : Product)
    (supplier : SupplierPtr) : (org.sendTargetedNotification product supplier).1 = org := by
  unfold Organization.sendTargetedNotification
  split <;> rfl

theorem find_eq_length_iff {α : Type} [DecidableEq α] (xs : List α) (v : α) :
    find xs v = xs.length ↔ v ∉ xs := by
  unfold find
  rw [find_if_eq_length_iff]
  constructor
  · intro h hv
    simpa using h v hv
  · intro h x hx
    have : x ≠ v := fun e => h (e ▸ hx)
    simpa using this

theorem updateStockLevel_of_le (p : Product) (q : Int) (hint : IsInt p.stockLevel)
    (hpos : 0 ≤ q) (hle : q ≤ p.stockLevel) :
    p.updateStockLevel q = { p with stockLevel := p.stockLevel - q } := by
  unfold Product.updateStockLevel
  have hw : wrapInt (p.stockLevel - q) = p.stockLevel - q := by
    apply wrapInt_of_isInt
    unfold IsInt INT_MIN INT_MAX at *
    omega
  rw [if_neg (by omega), hw]

theorem notifySubscribed_eq_map (productID quantity : Int) (subs : List SupplierPtr) :
    Organization.notifySubscribed productID quantity subs
      = subs.map (fun s => Event.notifyRestock s productID quantity) := by
  induction subs with
  | nil => rfl
  | cons s subs ih => simp [Organization.notifySubscribed, ih]

theorem checkInventoryLoop_eq (subs : List SupplierPtr) (ps : List Product) (need : Bool)
    (out : List Event) :
    Organization.checkInventoryLoop subs ps (need, out)
      = (need || ps.any Product.needsRestocking,
         out ++ (ps.filter Product.needsRestocking).flatMap (sweepOutput subs)) := by
  induction ps generalizing need out with
  | nil => simp [Organization.checkInventoryLoop]
  | cons p ps ih =>
    unfold Organization.checkInventoryLoop
    by_cases hp : p.needsRestocking = true
    · simp only [hp, if_true, ih, List.any_cons, List.filter_cons_of_pos, List.flatMap_cons]
      simp [sweepOutput, broadcast, quantityToRestock, notifySubscribed_eq_map,
        Product.getProductID, Product.getProductName, Product.getReorderThreshold,
        Product.getStockLevel]
    · simp [hp, ih]

theorem checkInventoryAndNotify_eq (org : Organization) :
    org.checkInventoryAndNotify
      = (org,
         (org.products.filter Product.needsRestocking).flatMap
             (sweepOutput org.subscribedSuppliers) ++
           if org.products.any Product.needsRestocking then [] else [Event.noRestockingNeeded]) := by
  unfold Organization.checkInventoryAndNotify
  rw [checkInventoryLoop_eq]
  by_cases h : org.products.any Product.needsRestocking = true
  · simp [h]
  · have h1 : org.products.any Product.needsRestocking = false := by simpa using h
    simp [h1]

theorem filter_isNotification_sweep (subs : List SupplierPtr) (ps : List Product) :
    (ps.flatMap (sweepOutput subs)).filter Event.isNotification
      = ps.flatMap (broadcast subs) := by
  induction ps with
  | nil => rfl
  | cons p ps ih =>
    simp only [List.flatMap_cons, List.filter_append, ih]
    congr 1
    simp only [sweepOutput, broadcast]
    rw [List.filter_cons_of_neg (by simp [Event.isNotification])]
    apply List.filter_eq_self.mpr
    intro e he
    obtain ⟨s, _, rfl⟩ := List.mem_map.mp he
    rfl

theorem length_flatMap_broadcast (subs : List SupplierPtr) (ps : List Product) :
    (ps.flatMap (broadcast subs)).length = ps.length * subs.length := by
  induction ps with
  | nil => simp
  | cons p ps ih =>
    simp only [List.flatMap_cons, List.length_append, ih, List.length_cons]
    simp [broadcast, Nat.add_mul, Nat.add_comm]

theorem flatMap_congr_mem {α β : Type} (l : List α) (f g : α → List β)
    (h : ∀ a ∈ l, f a = g a) : l.flatMap f = l.flatMap g := by
  induction l with
  | nil => rfl
  | cons a l ih =>
    simp only [List.flatMap_cons]
    rw [h a (List.mem_cons_self a l), ih (fun b hb => h b (List.mem_cons_of_mem a hb))]

theorem quantityToRestock_of_isInt (p : Product) (h1 : IsInt (p.reorderThreshold * 2))
    (h2 : IsInt (p.reorderThreshold * 2 - p.stockLevel)) :
    quantityToRestock p = p.reorderThreshold * 2 - p.stockLevel := by
  unfold quantityToRestock
  rw [wrapInt_of_isInt h1, wrapInt_of_isInt h2]

theorem sendTargetedNotification_eq (org : Organization) (p : Product) (sup : SupplierPtr) :
    org.sendTargetedNotification p sup
      = (org,
         if p.stockLevel ≤ p.reorderThreshold then
           [Event.targetedHeader, Event.lowStockAlert p.productName p.productID,
            Event.notifyRestock sup p.productID (quantityToRestock p)]
         else []) := by
  unfold Organization.sendTargetedNotification Product.needsRestocking
  by_cases h : p.stockLevel ≤ p.reorderThreshold
  · simp [h, quantityToRestock, Product.getProductID, Product.getProductName,
      Product.getReorderThreshold, Product.getStockLevel]
  · simp [h]

theorem local_assignLoop_eq (ps : List Product) (self : Supplier) :
    LocalSupplier.assignLoop ps self
      = { self with assignedProductIDs := self.assignedProductIDs ++ electronicsIDs ps } := by
  induction ps generalizing self with
  | nil => simp [LocalSupplier.assignLoop, electronicsIDs]
  | cons p ps ih =>
    unfold LocalSupplier.assignLoop
    by_cases hp : (p.category == "Electronics") = true
    · simp [Product.getCategory, Product.getProductID, hp, ih, Supplier.assignProduct,
        electronicsIDs]
    · simp [Product.getCategory, hp, ih, electronicsIDs]

theorem global_assignLoop_eq (ps : List Product) (self : Supplier) :
    GlobalSupplier.assignLoop ps self
      = { self with assignedProductIDs := self.assignedProductIDs ++ otherIDs ps } := by
  induction ps generalizing self with
  | nil => simp [GlobalSupplier.assignLoop, otherIDs]
  | cons p ps ih =>
    unfold GlobalSupplier.assignLoop
    by_cases hp : (p.category == "Electronics") = true
    · have hne : (p.category != "Electronics") = false := by simp [bne, hp]
      simp [Product.getCategory, hp, hne, ih, otherIDs]
    · have hf : (p.category == "Electronics") = false := by simpa using hp
      have hne : (p.category != "Electronics") = true := by simp [bne, hf]
      simp [Product.getCategory, Product.getProductID, hf, hne, ih, Supplier.assignProduct,
        otherIDs]

theorem subscribeToOrganization_eq (this : SupplierPtr) (self : Supplier) (org : OrgPtr)
    (o : Organization) :
    self.subscribeToOrganization this org o
      = ({ self with
            assignedProductIDs := self.assignedProductIDs ++ selectedIDs self.kind o.products
            subscribedOrg := some org },
         { o with subscribedSuppliers := o.subscribedSuppliers ++ [this] }) := by
  unfold Supplier.subscribeToOrganization
  cases hk : self.kind with
  | LocalSupplier =>
    simp [LocalSupplier.subscribeToOrganization, local_assignLoop_eq, selectedIDs,
      Organization.subscribeSupplier, Organization.getAllProducts, hk]
  | GlobalSupplier =>
    simp [GlobalSupplier.subscribeToOrganization, global_assignLoop_eq, selectedIDs,
      Organization.subscribeSupplier, Organization.getAllProducts, hk]

theorem electronics_other_perm (catalog : List Product) :
    (electronicsIDs catalog ++ otherIDs catalog).Perm (catalog.map Product.productID) := by
  unfold electronicsIDs otherIDs
  rw [← List.map_append]
  exact (List.filter_append_perm _ catalog).map _

theorem mem_selectedIDs (kind : SupplierKind) (catalog : List Product) (id : Int)
    (h : id ∈ selectedIDs kind catalog) : ∃ q ∈ catalog, q.productID = id := by
  cases kind with
  | LocalSupplier =>
    simp only [selectedIDs, electronicsIDs, List.mem_map, List.mem_filter] at h
    obtain ⟨q, ⟨hq, _⟩, hid⟩ := h
    exact ⟨q, hq, hid⟩
  | GlobalSupplier =>
    simp only [selectedIDs, otherIDs, List.mem_map, List.mem_filter] at h
    obtain ⟨q, ⟨hq, _⟩, hid⟩ := h
    exact ⟨q, hq, hid⟩

/-! ## The catalog: lookup and removal -/

/-- C9: `findProductByID(id)` returns the pointer to the first product in
catalog order whose `productID` is `id`, and `nullptr` exactly when no product
of the catalog has that id. When several entries share the id the first one is
found, in particular a product appended by `addProduct` never hides an entry
that was already found. -/
theorem findProductByID_first_match (org : Organization) (id : Int) :
    (∀ i : Nat, org.findProductByID id = some i ↔
        ∃ p, org.products[i]? = some p ∧ p.productID = id ∧
          ∀ j, j < i → ∀ q, org.products[j]? = some q → q.productID ≠ id) ∧
    (org.findProductByID id = none ↔ ∀ p ∈ org.products, p.productID ≠ id) ∧
    org.deref (org.findProductByID id)
      = org.products.find? (fun p => decide (p.productID = id)) ∧
    (∀ (duplicate : Product) (i : Nat), org.findProductByID id = some i →
        (org.addProduct duplicate).findProductByID id = some i ∧
        (org.addProduct duplicate).deref (some i) = org.deref (some i)) := by
  refine ⟨findProductByID_eq_some_iff org id, findProductByID_eq_none_iff org id,
    deref_findProductByID org id, ?_⟩
  intro duplicate i h
  obtain ⟨p, hp, hid, hfirst⟩ := (findProductByID_eq_some_iff org id i).mp h
  have hlt : i < org.products.length := by
    rcases Nat.lt_or_ge i org.products.length with h | h
    · exact h
    · rw [List.getElem?_eq_none h] at hp
      simp at hp
  have hnew : (org.addProduct duplicate).products[i]? = some p := by
    simp only [Organization.addProduct]
    rw [List.getElem?_append_left hlt]
    exact hp
  constructor
  · apply (findProductByID_eq_some_iff (org.addProduct duplicate) id i).mpr
    refine ⟨p, hnew, hid, ?_⟩
    intro j hj q hq
    apply hfirst j hj q
    simp only [Organization.addProduct] at hq
    rw [List.getElem?_append_left (by omega)] at hq
    exact hq
  · simp only [Organization.deref, Option.some_bind]
    rw [hnew, hp]

/-- C10: `removeProduct(id)` leaves exactly the entries whose `productID`
differs from `id`, unchanged and in their original order, and does not touch
the subscription list; afterwards `findProductByID(id)` is `nullptr`, and
`findProductByID` of any other id points to the same product as before. -/
theorem removeProduct_removes_all_matches (org : Organization) (id : Int) :
    (org.removeProduct id).products
      = org.products.filter (fun p => decide (p.productID ≠ id)) ∧
    (org.removeProduct id).subscribedSuppliers = org.subscribedSuppliers ∧
    (org.removeProduct id).findProductByID id = none ∧
    (∀ other : Int, other ≠ id →
      (org.removeProduct id).deref ((org.removeProduct id).findProductByID other)
        = org.deref (org.findProductByID other)) := by
  have hprod : (org.removeProduct id).products
      = org.products.filter (fun p => decide (p.productID ≠ id)) := by
    simp only [Organization.removeProduct, Product.getProductID, remove_if_eq_filter]
    congr 1
    funext p
    simp
  refine ⟨hprod, rfl, ?_, ?_⟩
  · apply (findProductByID_eq_none_iff _ id).mpr
    intro p hp
    rw [hprod] at hp
    simpa using (List.mem_filter.mp hp).2
  · intro other hne
    rw [deref_findProductByID, deref_findProductByID, hprod, List.find?_filter]
    congr 1
    funext p
    by_cases h : p.productID = other
    · simp [h, hne]
    · simp [h]

/-! ## Sales -/

/-- C1: in the sell branch of `main`, a quantity `q` with `q <= 0` or
`q > stockLevel` is rejected: `updateStockLevel` is not called, no object of the
program changes (so the stock of the product is what it was), and after the
listing the only output is the rejection message, `Invalid quantity or
insufficient stock.` when the product is assigned to the current supplier. -/
theorem sellProduct_rejects_bad_quantity (w : World) (currentSupplier : SupplierPtr)
    (cur : Supplier) (productId quantity : Int) (product : Nat) (p : Product)
    (hcur : w.suppliers[currentSupplier]? = some cur)
    (hfind : w.organization.findProductByID productId = some product)
    (hp : w.organization.products[product]? = some p)
    (hq : quantity ≤ 0 ∨ quantity > p.stockLevel) :
    main.sellProduct w currentSupplier productId quantity
      = some (w, w.organization.displayProductsForSupplier cur ++
          [if productId ∈ cur.assignedProductIDs then Event.invalidQuantity
           else Event.notAssigned]) := by
  unfold main.sellProduct
  simp only [hcur, hfind, hp, Supplier.getAssignedProducts, Product.getStockLevel]
  by_cases hmem : productId ∈ cur.assignedProductIDs
  · have hne : ¬ find cur.assignedProductIDs productId = cur.assignedProductIDs.length :=
      fun h => (find_eq_length_iff _ _).mp h hmem
    have hbad : ¬ (quantity > 0 ∧ quantity ≤ p.stockLevel) := by
      rintro ⟨h1, h2⟩
      rcases hq with h | h <;> omega
    simp only [hne, hbad, hmem, if_false, if_true]
  · have he : find cur.assignedProductIDs productId = cur.assignedProductIDs.length :=
      (find_eq_length_iff _ _).mpr hmem
    simp only [he, hmem, if_false, if_true]

/-- C2: for `0 < q <= stockLevel`, `updateStockLevel(q)` changes only the stock,
the new stock is the old stock minus `q` and is not negative; the sell branch of
`main` performs exactly this update on the product found, and nothing else
changes. With the seed data of `main`, selling 6 laptops leaves a stock of 4. -/
theorem updateStockLevel_valid_sale (p : Product) (q : Int) (hint : IsInt p.stockLevel)
    (hpos : 0 < q) (hle : q ≤ p.stockLevel) :
    p.updateStockLevel q = { p with stockLevel := p.stockLevel - q } ∧
    (p.updateStockLevel q).stockLevel = p.stockLevel - q ∧
    0 ≤ (p.updateStockLevel q).stockLevel ∧
    (∀ (w : World) (currentSupplier : SupplierPtr) (cur : Supplier) (productId : Int)
        (product : Nat),
      w.suppliers[currentSupplier]? = some cur →
      w.organization.findProductByID productId = some product →
      w.organization.products[product]? = some p →
      productId ∈ cur.assignedProductIDs →
      ∃ out, main.sellProduct w currentSupplier productId q
          = some ({ w with organization :=
                      { w.organization with
                        products := w.organization.products.set product
                          { p with stockLevel := p.stockLevel - q } } }, out) ∧
        Event.saleSuccessful (p.stockLevel - q) ∈ out) ∧
    (main.laptop.updateStockLevel 6).stockLevel = 4 ∧
    (main.setup.bind (fun w => main.sellProduct w main.localSupplier 101 6)).map
        (fun r => r.1.organization.products.map Product.stockLevel)
      = some [4, 10, 7, 5, 8] := by
  have hupd := updateStockLevel_of_le p q hint (le_of_lt hpos) hle
  refine ⟨hupd, ?_, ?_, ?_, by decide, by decide⟩
  · rw [hupd]
  · rw [hupd]
    show 0 ≤ p.stockLevel - q
    omega
  · intro w currentSupplier cur productId product hcur hfind hp hmem
    have hne : ¬ find cur.assignedProductIDs productId = cur.assignedProductIDs.length :=
      fun h => (find_eq_length_iff _ _).mp h hmem
    unfold main.sellProduct
    simp only [hcur, hfind, hp, Supplier.getAssignedProducts, Product.getStockLevel, hne,
      if_false, hupd]
    rw [if_pos (show q > 0 ∧ q ≤ p.stockLevel from ⟨hpos, hle⟩)]
    simp only [sendTargetedNotification_fst]
    split
    · exact ⟨_, rfl, by simp⟩
    · exact ⟨_, rfl, by simp⟩

/-- The rejection of C1 on the seed data: the local supplier asks for 11 laptops
when 10 are in stock. -/
theorem sellProduct_rejects_bad_quantity_witness :
    main.ready.suppliers[main.localSupplier]?
        = some ⟨.LocalSupplier, "Local Supplier", [101, 102, 103], some 0⟩ ∧
    main.ready.organization.findProductByID 101 = some 0 ∧
    main.ready.organization.products[0]? = some main.laptop ∧
    ((11 : Int) ≤ 0 ∨ (11 : Int) > main.laptop.stockLevel) ∧
    main.sellProduct main.ready main.localSupplier 101 11
      = some (main.ready,
          main.ready.organization.displayProductsForSupplier
              ⟨.LocalSupplier, "Local Supplier", [101, 102, 103], some 0⟩ ++
            [if (101 : Int) ∈ [101, 102, 103] then Event.invalidQuantity
             else Event.notAssigned]) :=
  ⟨by decide, by decide, by decide, by decide,
   sellProduct_rejects_bad_quantity main.ready main.localSupplier
     ⟨.LocalSupplier, "Local Supplier", [101, 102, 103], some 0⟩ 101 11 0 main.laptop
     (by decide) (by decide) (by decide) (by decide)⟩

/-- The sale of C2 on the seed data: 6 of the 10 laptops. -/
theorem updateStockLevel_valid_sale_witness :
    IsInt main.laptop.stockLevel ∧ (0 : Int) < 6 ∧ (6 : Int) ≤ main.laptop.stockLevel ∧
    (main.laptop.updateStockLevel 6).stockLevel = main.laptop.stockLevel - 6 ∧
    0 ≤ (main.laptop.updateStockLevel 6).stockLevel :=
  ⟨by decide, by decide, by decide,
   (updateStockLevel_valid_sale main.laptop 6 (by decide) (by decide) (by decide)).2.1,
   (updateStockLevel_valid_sale main.laptop 6 (by decide) (by decide) (by decide)).2.2.1⟩

/-- C8 as stated fails: a product with stock `2147483647` and the quantity `-1`
take the subtracting branch of `updateStockLevel`, `2147483647 - (-1)` is not
an `int`, and the stock stored is negative. -/
theorem updateStockLevel_negative_quantity_overflow :
    fullStock.WF ∧ 0 ≤ fullStock.stockLevel ∧ IsInt (-1) ∧
    (fullStock.updateStockLevel (-1)).stockLevel = -2147483648 ∧
    ¬ 0 ≤ (fullStock.updateStockLevel (-1)).stockLevel := by
  decide

/-- C8, amended: `updateStockLevel(q)` sets the stock to exactly 0 whenever `q`
exceeds the current stock; and for every quantity `q` for which
`stockLevel - q` does not exceed `INT_MAX` (every `q >= 0`, and every negative
`q` down to `stockLevel - INT_MAX`) the stock after the call is `>= 0`, namely 0
in the first case and `stockLevel - q` otherwise. The stock before the call
need not be `>= 0` for this. -/
theorem updateStockLevel_stock_nonneg (p : Product) (q : Int) (hint : IsInt p.stockLevel) :
    (q > p.stockLevel → (p.updateStockLevel q).stockLevel = 0) ∧
    (p.stockLevel - q ≤ INT_MAX →
      0 ≤ (p.updateStockLevel q).stockLevel ∧
      (q ≤ p.stockLevel → (p.updateStockLevel q).stockLevel = p.stockLevel - q)) ∧
    (0 ≤ q → 0 ≤ (p.updateStockLevel q).stockLevel) := by
  have hclamp : q > p.stockLevel → (p.updateStockLevel q).stockLevel = 0 := by
    intro h
    unfold Product.updateStockLevel
    rw [if_pos h]
  have hsub : p.stockLevel - q ≤ INT_MAX → q ≤ p.stockLevel →
      (p.updateStockLevel q).stockLevel = p.stockLevel - q := by
    intro hmax hle
    unfold Product.updateStockLevel
    rw [if_neg (by omega)]
    show wrapInt (p.stockLevel - q) = p.stockLevel - q
    apply wrapInt_of_isInt
    unfold IsInt INT_MIN
    exact ⟨by omega, hmax⟩
  have hnonneg : p.stockLevel - q ≤ INT_MAX → 0 ≤ (p.updateStockLevel q).stockLevel := by
    intro hmax
    rcases lt_or_le p.stockLevel q with h | h
    · rw [hclamp h]
    · rw [hsub hmax h]
      omega
  refine ⟨hclamp, fun hmax => ⟨hnonneg hmax, hsub hmax⟩, ?_⟩
  intro hq
  apply hnonneg
  have := hint.2
  omega

/-- The amended C8 on the seed data: the laptop (stock 10) and the quantity 12. -/
theorem updateStockLevel_stock_nonneg_witness :
    IsInt main.laptop.stockLevel ∧
    ((12 : Int) > main.laptop.stockLevel → (main.laptop.updateStockLevel 12).stockLevel = 0) ∧
    ((0 : Int) ≤ 12 → 0 ≤ (main.laptop.updateStockLevel 12).stockLevel) :=
  ⟨by decide,
   (updateStockLevel_stock_nonneg main.laptop 12 (by decide)).1,
   (updateStockLevel_stock_nonneg main.laptop 12 (by decide)).2.2⟩

/-! ## Notifications -/

/-- C3 as stated fails. A product with stock 0 and threshold `2^30` needs
restocking, `threshold * 2` is not an `int`, and both notification paths
deliver the quantity `-2147483648`, which is below the threshold. A product
constructed with stock `-3` and threshold `-2` needs restocking and its
threshold is negative. -/
theorem restock_quantity_bound_fails :
    (highThreshold.WF ∧ 0 ≤ highThreshold.stockLevel ∧
      highThreshold.needsRestocking = true ∧
      (Organization.sendTargetedNotification ⟨[highThreshold], [0]⟩ highThreshold 0).2.filter
          Event.isNotification = [Event.notifyRestock 0 202 (-2147483648)] ∧
      (Organization.checkInventoryAndNotify ⟨[highThreshold], [0]⟩).2.filter
          Event.isNotification = [Event.notifyRestock 0 202 (-2147483648)] ∧
      ¬ (-2147483648 : Int) ≥ highThreshold.reorderThreshold) ∧
    (negativeThreshold.WF ∧ negativeThreshold.needsRestocking = true ∧
      (Organization.sendTargetedNotification ⟨[negativeThreshold], [0]⟩ negativeThreshold
          0).2.filter Event.isNotification = [Event.notifyRestock 0 203 (-1)] ∧
      ¬ negativeThreshold.reorderThreshold ≥ 0) := by
  decide

/-- C3, amended: for every product that needs restocking, has `stockLevel >= 0`
and has `reorderThreshold <= 1073741823` (so that doubling it stays an `int`),
both notification paths deliver the quantity `reorderThreshold * 2 - stockLevel`,
and that quantity is `>= reorderThreshold`, which is `>= 0`. -/
theorem restock_quantity_bound (org : Organization) (p : Product) (sup : SupplierPtr)
    (hneed : p.needsRestocking = true) (h0 : 0 ≤ p.stockLevel)
    (hmax : p.reorderThreshold ≤ 1073741823) :
    (org.sendTargetedNotification p sup).2.filter Event.isNotification
      = [Event.notifyRestock sup p.productID (p.reorderThreshold * 2 - p.stockLevel)] ∧
    (p ∈ org.products → sup ∈ org.subscribedSuppliers →
      Event.notifyRestock sup p.productID (p.reorderThreshold * 2 - p.stockLevel)
        ∈ org.checkInventoryAndNotify.2) ∧
    (∀ e ∈ (Organization.checkInventoryAndNotify ⟨[p], [sup]⟩).2, e.isNotification = true →
      e = Event.notifyRestock sup p.productID (p.reorderThreshold * 2 - p.stockLevel)) ∧
    p.reorderThreshold * 2 - p.stockLevel ≥ p.reorderThreshold ∧
    p.reorderThreshold ≥ 0 := by
  have hle : p.stockLevel ≤ p.reorderThreshold := by
    simpa [Product.needsRestocking] using hneed
  have hq : quantityToRestock p = p.reorderThreshold * 2 - p.stockLevel := by
    apply quantityToRestock_of_isInt <;> unfold IsInt INT_MIN INT_MAX <;> omega
  refine ⟨?_, ?_, ?_, by omega, by omega⟩
  · rw [sendTargetedNotification_eq, if_pos hle, hq]
    simp [Event.isNotification]
  · intro hp hs
    rw [checkInventoryAndNotify_eq, ← hq]
    apply List.mem_append_left
    apply List.mem_flatMap.mpr
    refine ⟨p, List.mem_filter.mpr ⟨hp, hneed⟩, ?_⟩
    simp only [sweepOutput, broadcast]
    apply List.mem_cons_of_mem
    exact List.mem_map.mpr ⟨sup, hs, rfl⟩
  · intro e he hn
    rw [checkInventoryAndNotify_eq] at he
    simp only [List.filter_cons_of_pos, hneed, List.filter_nil, List.flatMap_cons,
      List.flatMap_nil, List.append_nil, List.any_cons, List.any_nil, Bool.or_false,
      if_true, sweepOutput, broadcast, List.map_cons, List.map_nil, List.mem_cons,
      List.mem_nil_iff, or_false, hq] at he
    rcases he with he | he
    · subst he
      simp [Event.isNotification] at hn
    · exact he

/-- The amended C3 on the seed data: the laptop after the sale of 6, stock 4 and
threshold 5, is announced with the quantity 6. -/
theorem restock_quantity_bound_witness :
    (main.laptop.updateStockLevel 6).needsRestocking = true ∧
    0 ≤ (main.laptop.updateStockLevel 6).stockLevel ∧
    (main.laptop.updateStockLevel 6).reorderThreshold ≤ 1073741823 ∧
    (main.ready.organization.sendTargetedNotification (main.laptop.updateStockLevel 6)
        main.localSupplier).2.filter Event.isNotification
      = [Event.notifyRestock main.localSupplier (main.laptop.updateStockLevel 6).productID
          ((main.laptop.updateStockLevel 6).reorderThreshold * 2
            - (main.laptop.updateStockLevel 6).stockLevel)] :=
  ⟨by decide, by decide, by decide,
   (restock_quantity_bound main.ready.organization (main.laptop.updateStockLevel 6)
      main.localSupplier (by decide) (by decide) (by decide)).1⟩

/-- C5 as stated fails. On a catalog holding one product with stock 0 and
threshold `2^30`, and one subscriber, the sweep delivers one notification whose
quantity is `-2147483648`: that is not `reorderThreshold * 2 - stockLevel`,
which is `2147483648` and is not an `int`. -/
theorem sweep_quantity_overflow :
    highThreshold.WF ∧ highThreshold.stockLevel ≤ highThreshold.reorderThreshold ∧
    (Organization.checkInventoryAndNotify ⟨[highThreshold], [0]⟩).2.filter Event.isNotification
      = [Event.notifyRestock 0 202 (-2147483648)] ∧
    (Organization.checkInventoryAndNotify ⟨[highThreshold], [0]⟩).2.filter Event.isNotification
      ≠ [Event.notifyRestock 0 highThreshold.productID
          (highThreshold.reorderThreshold * 2 - highThreshold.stockLevel)] ∧
    highThreshold.reorderThreshold * 2 - highThreshold.stockLevel = 2147483648 := by
  decide

/-- C5, amended: `checkInventoryAndNotify` changes nothing in the organization.
When, for every product with `stockLevel <= reorderThreshold`, neither
`reorderThreshold * 2` nor `reorderThreshold * 2 - stockLevel` leaves the range
of `int`, it delivers exactly this sequence: for each such product in catalog
order, one `notifyRestock(productID, reorderThreshold * 2 - stockLevel)` to every
entry of the subscription list in subscription order. For every catalog, the
notifications are that sequence with the `int` value of the expression as
quantity, their number is the number of such products times the number of
subscribers, the supplier objects (and so their assignment lists) play no part,
and `No restocking needed` is reported exactly when no product has
`stockLevel <= reorderThreshold`, in which case it is the whole output. -/
theorem checkInventoryAndNotify_broadcast (org : Organization) :
    org.checkInventoryAndNotify.1 = org ∧
    ((∀ p ∈ org.products, p.stockLevel ≤ p.reorderThreshold →
        IsInt (p.reorderThreshold * 2) ∧ IsInt (p.reorderThreshold * 2 - p.stockLevel)) →
      org.checkInventoryAndNotify.2.filter Event.isNotification
        = (org.products.filter (fun p => decide (p.stockLevel ≤ p.reorderThreshold))).flatMap
            (fun p => org.subscribedSuppliers.map
              (fun s => Event.notifyRestock s p.productID
                (p.reorderThreshold * 2 - p.stockLevel)))) ∧
    org.checkInventoryAndNotify.2.filter Event.isNotification
      = (org.products.filter (fun p => decide (p.stockLevel ≤ p.reorderThreshold))).flatMap
          (fun p => org.subscribedSuppliers.map
            (fun s => Event.notifyRestock s p.productID (quantityToRestock p))) ∧
    (org.checkInventoryAndNotify.2.filter Event.isNotification).length
      = (org.products.filter (fun p => decide (p.stockLevel ≤ p.reorderThreshold))).length
          * org.subscribedSuppliers.length ∧
    (Event.noRestockingNeeded ∈ org.checkInventoryAndNotify.2 ↔
      ∀ p ∈ org.products, ¬ p.stockLevel ≤ p.reorderThreshold) ∧
    ((∀ p ∈ org.products, ¬ p.stockLevel ≤ p.reorderThreshold) →
      org.checkInventoryAndNotify.2 = [Event.noRestockingNeeded]) ∧
    (∀ suppliers : List Supplier,
      (main.checkInventoryStatus ⟨org, suppliers⟩).2 = org.checkInventoryAndNotify.2 ∧
      (main.checkInventoryStatus ⟨org, suppliers⟩).1 = ⟨org, suppliers⟩) := by
  have hfilter : (org.checkInventoryAndNotify.2.filter Event.isNotification)
      = (org.products.filter Product.needsRestocking).flatMap
          (broadcast org.subscribedSuppliers) := by
    rw [checkInventoryAndNotify_eq]
    simp only [List.filter_append, filter_isNotification_sweep]
    split <;> simp [Event.isNotification]
  have hnone : ∀ ps : List Product, ps.any Product.needsRestocking = false ↔
      ∀ p ∈ ps, ¬ p.stockLevel ≤ p.reorderThreshold := by
    intro ps
    simp [Product.needsRestocking]
  have hno : ∀ (subs : List SupplierPtr) (ps : List Product),
      Event.noRestockingNeeded ∉ ps.flatMap (sweepOutput subs) := by
    intro subs ps h
    obtain ⟨p, _, hp⟩ := List.mem_flatMap.mp h
    simp [sweepOutput, broadcast] at hp
  refine ⟨by rw [checkInventoryAndNotify_eq], ?_, hfilter, ?_, ?_, ?_, ?_⟩
  · intro hrange
    rw [hfilter]
    apply flatMap_congr_mem _ (broadcast org.subscribedSuppliers)
    intro p hp
    obtain ⟨hmem, hneed⟩ := List.mem_filter.mp hp
    have hle : p.stockLevel ≤ p.reorderThreshold := by
      simpa [Product.needsRestocking] using hneed
    obtain ⟨h1, h2⟩ := hrange p hmem hle
    simp only [broadcast, quantityToRestock_of_isInt p h1 h2]
  · rw [hfilter, length_flatMap_broadcast]
    rfl
  · rw [checkInventoryAndNotify_eq, ← hnone]
    by_cases h : org.products.any Product.needsRestocking = true
    · simp only [h, if_true, List.append_nil]
      constructor
      · intro hm
        exact absurd hm (hno _ _)
      · intro hf
        simp at hf
    · have h1 : org.products.any Product.needsRestocking = false := by simpa using h
      simp [h1]
  · intro hall
    have h1 := (hnone org.products).mpr hall
    have h2 : org.products.filter Product.needsRestocking = [] := by
      apply List.filter_eq_nil_iff.mpr
      intro a ha
      have := hall a ha
      simpa [Product.needsRestocking] using this
    rw [checkInventoryAndNotify_eq, h1, h2]
    simp
  · intro suppliers
    constructor
    · rfl
    · simp [main.checkInventoryStatus, checkInventoryAndNotify_eq]

/-- The amended C5 on the seed data after the sale of 6 laptops: no quantity
overflows, and the laptop is announced to both subscribers with the quantity
`5 * 2 - 4`. -/
theorem checkInventoryAndNotify_broadcast_witness :
    (∀ p ∈ afterSale.products, p.stockLevel ≤ p.reorderThreshold →
        IsInt (p.reorderThreshold * 2) ∧ IsInt (p.reorderThreshold * 2 - p.stockLevel)) ∧
    afterSale.checkInventoryAndNotify.2.filter Event.isNotification
      = (afterSale.products.filter
            (fun p => decide (p.stockLevel ≤ p.reorderThreshold))).flatMap
          (fun p => afterSale.subscribedSuppliers.map
            (fun s => Event.notifyRestock s p.productID
              (p.reorderThreshold * 2 - p.stockLevel))) ∧
    (afterSale.products.filter (fun p => decide (p.stockLevel ≤ p.reorderThreshold))).flatMap
        (fun p => afterSale.subscribedSuppliers.map
          (fun s => Event.notifyRestock s p.productID
            (p.reorderThreshold * 2 - p.stockLevel)))
      = [Event.notifyRestock main.localSupplier 101 6,
         Event.notifyRestock main.globalSupplier 101 6] :=
  ⟨by decide,
   (checkInventoryAndNotify_broadcast afterSale).2.1 (by decide),
   by decide⟩

/-- C6 as stated fails. For a product with stock 0 and threshold `2^30` the
targeted notification carries the quantity `-2147483648`: that is not
`reorderThreshold * 2 - stockLevel`, which is `2147483648` and is not an `int`. -/
theorem targeted_quantity_overflow :
    highThreshold.WF ∧ highThreshold.stockLevel ≤ highThreshold.reorderThreshold ∧
    (Organization.sendTargetedNotification ⟨[highThreshold], [0]⟩ highThreshold 0).2.filter
        Event.isNotification = [Event.notifyRestock 0 202 (-2147483648)] ∧
    (Organization.sendTargetedNotification ⟨[highThreshold], [0]⟩ highThreshold 0).2.filter
        Event.isNotification
      ≠ [Event.notifyRestock 0 highThreshold.productID
          (highThreshold.reorderThreshold * 2 - highThreshold.stockLevel)] ∧
    highThreshold.reorderThreshold * 2 - highThreshold.stockLevel = 2147483648 := by
  decide

/-- C6, amended: `sendTargetedNotification(product, supplier)` changes nothing in
the organization. When `stockLevel <= reorderThreshold` and neither
`reorderThreshold * 2` nor `reorderThreshold * 2 - stockLevel` leaves the range
of `int`, it writes the banner and the alert and delivers exactly one
notification, `notifyRestock(productID, reorderThreshold * 2 - stockLevel)`, to
`supplier`. When `stockLevel <= reorderThreshold`, whatever the values, it
delivers exactly one notification to `supplier`, with the `int` value of the
expression as quantity. When `stockLevel > reorderThreshold` it writes and
delivers nothing and returns normally. -/
theorem sendTargetedNotification_one_or_none (org : Organization) (p : Product)
    (sup : SupplierPtr) :
    (org.sendTargetedNotification p sup).1 = org ∧
    (p.stockLevel ≤ p.reorderThreshold → IsInt (p.reorderThreshold * 2) →
      IsInt (p.reorderThreshold * 2 - p.stockLevel) →
      (org.sendTargetedNotification p sup).2
        = [Event.targetedHeader, Event.lowStockAlert p.productName p.productID,
           Event.notifyRestock sup p.productID (p.reorderThreshold * 2 - p.stockLevel)] ∧
      (org.sendTargetedNotification p sup).2.filter Event.isNotification
        = [Event.notifyRestock sup p.productID (p.reorderThreshold * 2 - p.stockLevel)]) ∧
    (p.stockLevel ≤ p.reorderThreshold →
      (org.sendTargetedNotification p sup).2.filter Event.isNotification
        = [Event.notifyRestock sup p.productID (quantityToRestock p)]) ∧
    (p.stockLevel > p.reorderThreshold → (org.sendTargetedNotification p sup).2 = []) := by
  refine ⟨sendTargetedNotification_fst org p sup, ?_, ?_, ?_⟩
  · intro h h1 h2
    rw [sendTargetedNotification_eq, if_pos h, quantityToRestock_of_isInt p h1 h2]
    simp [Event.isNotification]
  · intro h
    rw [sendTargetedNotification_eq, if_pos h]
    simp [Event.isNotification]
  · intro h
    rw [sendTargetedNotification_eq, if_neg (by omega)]

/-- The amended C6 on the seed data: the laptop after the sale of 6, stock 4 and
threshold 5, is announced to the local supplier with the quantity `5 * 2 - 4`;
the smartphone, stock 10 and threshold 5, is not announced. -/
theorem sendTargetedNotification_one_or_none_witness :
    laptopSold.stockLevel ≤ laptopSold.reorderThreshold ∧
    IsInt (laptopSold.reorderThreshold * 2) ∧
    IsInt (laptopSold.reorderThreshold * 2 - laptopSold.stockLevel) ∧
    (afterSale.sendTargetedNotification laptopSold main.localSupplier).2.filter
        Event.isNotification
      = [Event.notifyRestock main.localSupplier laptopSold.productID
          (laptopSold.reorderThreshold * 2 - laptopSold.stockLevel)] ∧
    (main.smartphone.stockLevel > main.smartphone.reorderThreshold) ∧
    (afterSale.sendTargetedNotification main.smartphone main.localSupplier).2 = [] :=
  ⟨by decide, by decide, by decide,
   ((sendTargetedNotification_one_or_none afterSale laptopSold main.localSupplier).2.1
      (by decide) (by decide) (by decide)).2,
   by decide,
   (sendTargetedNotification_one_or_none afterSale main.smartphone main.localSupplier).2.2.2
      (by decide)⟩

/-- The sweep on the seed data: nothing to restock when the menu loop is
entered; after the local supplier has sold 6 laptops, the laptop is announced
to both subscribers with the quantity 6. -/
theorem sweep_on_seed_data :
    (main.checkInventoryStatus main.ready).2 = [Event.noRestockingNeeded] ∧
    (main.sellProduct main.ready main.localSupplier 101 6).map
        (fun r => (main.checkInventoryStatus r.1).2)
      = some [Event.lowStockAlert "Laptop" 101,
              Event.notifyRestock main.localSupplier 101 6,
              Event.notifyRestock main.globalSupplier 101 6] := by
  decide

/-- The targeted notification on the seed data: the sale of 6 laptops is
followed by one notification to the selling supplier, the sale of 2 by none. -/
theorem targeted_on_seed_data :
    (main.sellProduct main.ready main.localSupplier 101 6).map
        (fun r => r.2.filter Event.isNotification)
      = some [Event.notifyRestock main.localSupplier 101 6] ∧
    (main.sellProduct main.ready main.localSupplier 101 2).map
        (fun r => r.2.filter Event.isNotification)
      = some [] := by
  decide

/-! ## Subscription and assignment -/

/-- C4 as stated fails. `addProduct` accepts a catalog whose two entries, one
`Electronics` and one not, carry the same id 2; after the subscriptions of a
fresh local and a fresh global supplier both assignment lists are `[2]`, so the
product with id 2 is assigned to both suppliers, not to exactly one. -/
theorem shared_id_assigned_to_both :
    sharedIdCatalog.products = [gadget, toy] ∧
    ((LocalSupplier.new "L").subscribeToOrganization 0 0 sharedIdCatalog).1.assignedProductIDs
      = [2] ∧
    ((GlobalSupplier.new "G").subscribeToOrganization 1 0 sharedIdCatalog).1.assignedProductIDs
      = [2] ∧
    gadget ∈ sharedIdCatalog.products ∧
    gadget.productID ∈
      ((LocalSupplier.new "L").subscribeToOrganization 0 0
        sharedIdCatalog).1.assignedProductIDs ∧
    gadget.productID ∈
      ((GlobalSupplier.new "G").subscribeToOrganization 1 0
        sharedIdCatalog).1.assignedProductIDs := by
  decide

/-- C4, amended: for every catalog, a freshly constructed `LocalSupplier` that
subscribes is assigned exactly the ids of the `Electronics` products, in catalog
order, and a freshly constructed `GlobalSupplier` exactly the ids of all other
products, in catalog order; the call appends the supplier to the subscription
list and leaves the catalog as it is. Every catalog entry is selected by exactly
one of the two rules, so the two lists together hold the id of every entry
exactly once. When no id is carried both by an `Electronics` entry and by an
entry of another category, in particular when the ids of the catalog are
distinct, the id of every catalog product is in exactly one of the two lists.
In `main` the lists are 101, 102, 103 and 104, 105. -/
theorem subscribeToOrganization_partitions_catalog (o : Organization)
    (localPtr globalPtr : SupplierPtr) (org : OrgPtr) (localName globalName : String) :
    ((LocalSupplier.new localName).subscribeToOrganization localPtr org o).1.assignedProductIDs
      = (o.products.filter (fun p => p.category == "Electronics")).map Product.productID ∧
    ((GlobalSupplier.new globalName).subscribeToOrganization globalPtr org
        o).1.assignedProductIDs
      = (o.products.filter (fun p => !(p.category == "Electronics"))).map Product.productID ∧
    ((LocalSupplier.new localName).subscribeToOrganization localPtr org o).2
      = { o with subscribedSuppliers := o.subscribedSuppliers ++ [localPtr] } ∧
    ((GlobalSupplier.new globalName).subscribeToOrganization globalPtr org o).2
      = { o with subscribedSuppliers := o.subscribedSuppliers ++ [globalPtr] } ∧
    (((LocalSupplier.new localName).subscribeToOrganization localPtr org
          o).1.assignedProductIDs ++
        ((GlobalSupplier.new globalName).subscribeToOrganization globalPtr org
          o).1.assignedProductIDs).Perm
      (o.products.map Product.productID) ∧
    (∀ p ∈ o.products,
      (p.category = "Electronics" ∧
        p.productID ∈ ((LocalSupplier.new localName).subscribeToOrganization localPtr org
          o).1.assignedProductIDs) ∨
      (p.category ≠ "Electronics" ∧
        p.productID ∈ ((GlobalSupplier.new globalName).subscribeToOrganization globalPtr org
          o).1.assignedProductIDs)) ∧
    ((∀ p ∈ o.products, ∀ q ∈ o.products, p.productID = q.productID →
        (p.category = "Electronics" ↔ q.category = "Electronics")) →
      ∀ p ∈ o.products,
        (p.productID ∈ ((LocalSupplier.new localName).subscribeToOrganization localPtr org
            o).1.assignedProductIDs ∧
          p.productID ∉ ((GlobalSupplier.new globalName).subscribeToOrganization globalPtr org
            o).1.assignedProductIDs) ∨
        (p.productID ∉ ((LocalSupplier.new localName).subscribeToOrganization localPtr org
            o).1.assignedProductIDs ∧
          p.productID ∈ ((GlobalSupplier.new globalName).subscribeToOrganization globalPtr org
            o).1.assignedProductIDs)) ∧
    ((o.products.map Product.productID).Nodup →
      ∀ p ∈ o.products, ∀ q ∈ o.products, p.productID = q.productID →
        (p.category = "Electronics" ↔ q.category = "Electronics")) ∧
    main.setup.map (fun w => w.suppliers.map Supplier.assignedProductIDs)
      = some [[101, 102, 103], [104, 105]] := by
  have hL : ((LocalSupplier.new localName).subscribeToOrganization localPtr org
      o).1.assignedProductIDs = electronicsIDs o.products := by
    rw [subscribeToOrganization_eq]
    simp [LocalSupplier.new, selectedIDs]
  have hG : ((GlobalSupplier.new globalName).subscribeToOrganization globalPtr org
      o).1.assignedProductIDs = otherIDs o.products := by
    rw [subscribeToOrganization_eq]
    simp [GlobalSupplier.new, selectedIDs]
  have hmemL : ∀ id : Int, id ∈ electronicsIDs o.products ↔
      ∃ q ∈ o.products, q.category = "Electronics" ∧ q.productID = id := by
    intro id
    simp only [electronicsIDs, List.mem_map, List.mem_filter, beq_iff_eq]
    constructor
    · rintro ⟨q, ⟨hq, hc⟩, hid⟩
      exact ⟨q, hq, hc, hid⟩
    · rintro ⟨q, hq, hc, hid⟩
      exact ⟨q, ⟨hq, hc⟩, hid⟩
  have hmemG : ∀ id : Int, id ∈ otherIDs o.products ↔
      ∃ q ∈ o.products, q.category ≠ "Electronics" ∧ q.productID = id := by
    intro id
    simp only [otherIDs, List.mem_map, List.mem_filter, Bool.not_eq_true', beq_eq_false_iff_ne,
      ne_eq]
    constructor
    · rintro ⟨q, ⟨hq, hc⟩, hid⟩
      exact ⟨q, hq, hc, hid⟩
    · rintro ⟨q, hq, hc, hid⟩
      exact ⟨q, ⟨hq, hc⟩, hid⟩
  rw [hL, hG]
  refine ⟨rfl, rfl, ?_, ?_, electronics_other_perm o.products, ?_, ?_, ?_, by decide⟩
  · rw [subscribeToOrganization_eq]
  · rw [subscribeToOrganization_eq]
  · intro p hp
    by_cases hc : p.category = "Electronics"
    · exact Or.inl ⟨hc, (hmemL _).mpr ⟨p, hp, hc, rfl⟩⟩
    · exact Or.inr ⟨hc, (hmemG _).mpr ⟨p, hp, hc, rfl⟩⟩
  · intro hsep p hp
    by_cases hc : p.category = "Electronics"
    · left
      refine ⟨(hmemL _).mpr ⟨p, hp, hc, rfl⟩, ?_⟩
      intro hg
      obtain ⟨q, hq, hqc, hid⟩ := (hmemG _).mp hg
      exact hqc ((hsep q hq p hp hid).mpr hc)
    · right
      refine ⟨?_, (hmemG _).mpr ⟨p, hp, hc, rfl⟩⟩
      intro hl
      obtain ⟨q, hq, hqc, hid⟩ := (hmemL _).mp hl
      exact hc ((hsep q hq p hp hid).mp hqc)
  · intro hnd p hp q hq hid
    have hpq : p = q := List.inj_on_of_nodup_map hnd hp hq hid
    rw [hpq]

/-- The amended C4 on the seed data of `main`: the five ids are distinct, and
the id of every product is in exactly one of the two assignment lists. -/
theorem subscribeToOrganization_partitions_catalog_witness :
    (∀ p ∈ main.seeded.organization.products, ∀ q ∈ main.seeded.organization.products,
      p.productID = q.productID →
        (p.category = "Electronics" ↔ q.category = "Electronics")) ∧
    (∀ p ∈ main.seeded.organization.products,
      (p.productID ∈ ((LocalSupplier.new "Local Supplier").subscribeToOrganization
            main.localSupplier World.orgPtr main.seeded.organization).1.assignedProductIDs ∧
        p.productID ∉ ((GlobalSupplier.new "Global Supplier").subscribeToOrganization
            main.globalSupplier World.orgPtr main.seeded.organization).1.assignedProductIDs) ∨
      (p.productID ∉ ((LocalSupplier.new "Local Supplier").subscribeToOrganization
            main.localSupplier World.orgPtr main.seeded.organization).1.assignedProductIDs ∧
        p.productID ∈ ((GlobalSupplier.new "Global Supplier").subscribeToOrganization
            main.globalSupplier World.orgPtr main.seeded.organization).1.assignedProductIDs)) ∧
    ((LocalSupplier.new "Local Supplier").subscribeToOrganization main.localSupplier
        World.orgPtr main.seeded.organization).1.assignedProductIDs = [101, 102, 103] ∧
    ((GlobalSupplier.new "Global Supplier").subscribeToOrganization main.globalSupplier
        World.orgPtr main.seeded.organization).1.assignedProductIDs = [104, 105] :=
  ⟨by decide,
   (subscribeToOrganization_partitions_catalog main.seeded.organization main.localSupplier
      main.globalSupplier World.orgPtr "Local Supplier" "Global Supplier").2.2.2.2.2.2.1
      (by decide),
   by decide, by decide⟩

/-- C7: when a supplier has subscribed, its assignment list is what it was
before plus the ids selected from the catalog of that moment; a later
`addProduct(p)` appends `p` to the catalog and leaves every supplier object, and
so this assignment list, exactly as it was. If `p` carries an id that is new to
the catalog and to the list, the id is not in the list afterwards. In `main`,
adding an `Electronics` product with id 106 after the subscriptions leaves the
local supplier with 101, 102, 103, although 106 is selected from the new
catalog. -/
theorem addProduct_keeps_assignment (w : World) (supplier : SupplierPtr) (s : Supplier)
    (p : Product) (hs : w.suppliers[supplier]? = some s) :
    (∃ w1, w.subscribeToOrganization supplier = some w1 ∧
      (w1.suppliers[supplier]?).map Supplier.assignedProductIDs
        = some (s.assignedProductIDs ++ selectedIDs s.kind w.organization.products) ∧
      (w1.addProduct p).suppliers = w1.suppliers ∧
      (w1.addProduct p).organization.products = w.organization.products ++ [p] ∧
      ((w1.addProduct p).suppliers[supplier]?).map Supplier.assignedProductIDs
        = some (s.assignedProductIDs ++ selectedIDs s.kind w.organization.products) ∧
      (p.productID ∉ s.assignedProductIDs →
        (∀ q ∈ w.organization.products, q.productID ≠ p.productID) →
        ∀ s1, (w1.addProduct p).suppliers[supplier]? = some s1 →
          p.productID ∉ s1.assignedProductIDs)) ∧
    (main.ready.addProduct camera).suppliers.map Supplier.assignedProductIDs
      = [[101, 102, 103], [104, 105]] ∧
    selectedIDs .LocalSupplier (main.ready.addProduct camera).organization.products
      = [101, 102, 103, 106] := by
  refine ⟨?_, by decide, by decide⟩
  have hlt : supplier < w.suppliers.length := by
    rcases Nat.lt_or_ge supplier w.suppliers.length with h | h
    · exact h
    · rw [List.getElem?_eq_none h] at hs
      simp at hs
  have hsub : w.subscribeToOrganization supplier
      = some { organization := (s.subscribeToOrganization supplier World.orgPtr w.organization).2
               suppliers := w.suppliers.set supplier
                 (s.subscribeToOrganization supplier World.orgPtr w.organization).1 } := by
    unfold World.subscribeToOrganization
    simp only [hs]
  have hget : (w.suppliers.set supplier
        (s.subscribeToOrganization supplier World.orgPtr w.organization).1)[supplier]?
      = some (s.subscribeToOrganization supplier World.orgPtr w.organization).1 := by
    simp [hlt]
  have hlist : (s.subscribeToOrganization supplier World.orgPtr w.organization).1.assignedProductIDs
      = s.assignedProductIDs ++ selectedIDs s.kind w.organization.products := by
    rw [subscribeToOrganization_eq]
  refine ⟨_, hsub, ?_, rfl, ?_, ?_, ?_⟩
  · simp only [hget, Option.map_some', hlist]
  · simp only [World.addProduct, Organization.addProduct, subscribeToOrganization_eq]
  · simp only [World.addProduct, hget, Option.map_some', hlist]
  · intro hnot hfresh s1 hs1
    simp only [World.addProduct, hget, Option.some.injEq] at hs1
    subst hs1
    rw [hlist]
    intro hmem
    rcases List.mem_append.mp hmem with h | h
    · exact hnot h
    · obtain ⟨q, hq, hid⟩ := mem_selectedIDs _ _ _ h
      exact hfresh q hq hid

/-- C7 on the seed data: the local supplier object of `main` before its
subscription, and the product with id 106. -/
theorem addProduct_keeps_assignment_witness :
    main.seeded.suppliers[main.localSupplier]? = some (LocalSupplier.new "Local Supplier") ∧
    ∃ w1, main.seeded.subscribeToOrganization main.localSupplier = some w1 ∧
      (w1.suppliers[main.localSupplier]?).map Supplier.assignedProductIDs
        = some ((LocalSupplier.new "Local Supplier").assignedProductIDs ++
            selectedIDs (LocalSupplier.new "Local Supplier").kind
              main.seeded.organization.products) ∧
      (w1.addProduct camera).suppliers = w1.suppliers ∧
      (w1.addProduct camera).organization.products
        = main.seeded.organization.products ++ [camera] ∧
      ((w1.addProduct camera).suppliers[main.localSupplier]?).map Supplier.assignedProductIDs
        = some ((LocalSupplier.new "Local Supplier").assignedProductIDs ++
            selectedIDs (LocalSupplier.new "Local Supplier").kind
              main.seeded.organization.products) ∧
      (camera.productID ∉ (LocalSupplier.new "Local Supplier").assignedProductIDs →
        (∀ q ∈ main.seeded.organization.products, q.productID ≠ camera.productID) →
        ∀ s1, (w1.addProduct camera).suppliers[main.localSupplier]? = some s1 →
          camera.productID ∉ s1.assignedProductIDs) :=
  ⟨by decide,
   (addProduct_keeps_assignment main.seeded main.localSupplier
      (LocalSupplier.new "Local Supplier") camera (by decide)).1⟩

end Inventory
